import Mathlib

/-!
Shallow embedding of the `sf_printer_server` job pipeline.

Source files embedded here:
  * `src/sf_printer_server/jobs/models.py`      — `PrintJob` dataclass and `from_event`
  * `src/sf_printer_server/jobs/processor.py`   — `process_event`, `_handle_print_job`,
    `_apply_zpl_config`, `_resolve_content`, `_build_requests_auth`, idempotency set
  * `src/sf_printer_server/printers/drivers.py` — `get_printer_info` cache protocol
  * `src/sf_printer_server/salesforce/context.py` — `is_salesforce_url`

Modelling conventions:
  * Python strings are `List Char`; Python `bytes` are `List Nat` (byte values).
  * Module-global mutable state (the idempotency set `_seen_correlations`, the
    printer-info cache `_printer_info_cache`, the Salesforce context globals)
    is passed explicitly and returned updated.
  * External I/O (HTTP download, TCP socket writes, the SGD device probe) is an
    oracle: its outcome is a parameter of the function that performs it, and the
    calls actually issued are recorded in a trace.
  * Python exceptions that a function can raise and its caller catches are
    `Except Unit` errors.
-/

namespace SfPrinter

abbrev Str := List Char

abbrev Bytes := List Nat

/-- Coerce a Lean string literal to the `List Char` representation used throughout. -/
def str (x : String) : Str := x.data

/-- The ASCII whitespace characters stripped by Python `str.strip()`. -/
def isPySpace (c : Char) : Bool :=
  c = ' ' || c = '\t' || c = '\n' || c = '\r' || c = '\x0b' || c = '\x0c'

/-- Python `s.strip()`: drop whitespace from both ends. -/
def pyStrip (s : Str) : Str :=
  ((s.dropWhile isPySpace).reverse.dropWhile isPySpace).reverse

/-- Python `s.lower()` (ASCII fragment, all the fields compared here are ASCII). -/
def pyLower (s : Str) : Str := s.map Char.toLower

/-- Python `needle in hay` on strings/bytes: contiguous-subsequence containment. -/
def containsSeq {α : Type} [DecidableEq α] (needle : List α) : List α → Bool
  | [] => decide (needle = [])
  | b :: t => startsWith needle (b :: t) || containsSeq needle t
where
  /-- Python `hay.startswith(needle)`. -/
  startsWith : List α → List α → Bool
  | [], _ => true
  | _ :: _, [] => false
  | a :: t1, b :: t2 => decide (a = b) && startsWith t1 t2

/-- Python `s.split(sep, 1)[1]` for a one-character separator that occurs in `s`:
everything after the first occurrence.  (`_resolve_content` only calls it when
`',' in raw` holds, so the no-separator case is irrelevant; we return `[]` there.) -/
def afterFirstComma : Str → Str
  | [] => []
  | c :: t => if c = ',' then t else afterFirstComma t

/-- Value of one standard-base64 alphabet character (`A-Z a-z 0-9 + /`). -/
def b64Val (c : Char) : Option Nat :=
  if 'A' ≤ c ∧ c ≤ 'Z' then some (c.toNat - 65)
  else if 'a' ≤ c ∧ c ≤ 'z' then some (c.toNat - 97 + 26)
  else if '0' ≤ c ∧ c ≤ '9' then some (c.toNat - 48 + 52)
  else if c = '+' then some 62
  else if c = '/' then some 63
  else none

/-- Model of `base64.b64decode` on its canonical fragment: groups of four alphabet
characters, the final group optionally padded with one or two `=`.  (CPython's
default `validate=False` mode additionally discards foreign characters before
decoding; no input reached by the pipeline under the claims' hypotheses
contains any, so the canonical fragment is the behaviour exercised.) -/
def b64DecodeGroups : Str → Option Bytes
  | [] => some []
  | a :: b :: c :: d :: rest =>
    match b64Val a, b64Val b with
    | some va, some vb =>
      if c = '=' then
        if d = '=' ∧ rest = [] then some [va * 4 + vb / 16] else none
      else
        match b64Val c with
        | some vc =>
          if d = '=' then
            if rest = [] then some [va * 4 + vb / 16, (vb % 16) * 16 + vc / 4] else none
          else
            match b64Val d with
            | some vd =>
              match b64DecodeGroups rest with
              | some bs =>
                some ((va * 4 + vb / 16) :: ((vb % 16) * 16 + vc / 4) :: ((vc % 4) * 64 + vd) :: bs)
              | none => none
            | none => none
        | none => none
    | _, _ => none
  | _ => none

/-- The `*_base64` branch of `processor._resolve_content` (processor.py:183-190):
strip surrounding whitespace, strip a leading `data:...,` URI prefix when
present, re-pad to a multiple of four with `=`, then base64-decode.
`none` models the `binascii.Error` escaping to the caller. -/
def resolveBase64 (content : Str) : Option Bytes :=
  let raw := pyStrip content
  let raw :=
    if containsSeq [','] raw && containsSeq.startsWith (str "data:") raw then
      afterFirstComma raw
    else raw
  let raw := raw ++ List.replicate ((4 - raw.length % 4) % 4) '='
  b64DecodeGroups raw

/-! ## `salesforce/context.py` — shared Salesforce session context

The module globals `_access_token` / `_instance_url` (set once at startup by
`set_sf_credentials`) are modelled as an explicit record. -/

structure SfContext where
  accessToken : Str
  instanceUrl : Str
deriving DecidableEq

/-- Model of `context.is_salesforce_url` (context.py:39-43): true when an instance URL is
stored, the URL is non-empty, and the URL either starts with the stored
instance URL or contains `.salesforce.com` case-insensitively. -/
def isSalesforceUrl (ctx : SfContext) (url : Str) : Bool :=
  if ctx.instanceUrl = [] ∨ url = [] then false
  else
    containsSeq.startsWith ctx.instanceUrl url
      || containsSeq (str ".salesforce.com") (pyLower url)

/-! ## `jobs/models.py` — the `PrintJob` dataclass -/

/-- Python dict lookup `m.get(k, '')` over a parsed JSON object, modelled as an
association list of string keys and values. -/
def dictGetStr (m : List (Str × Str)) (k : Str) : Str :=
  match m with
  | [] => []
  | (k2, v) :: t => if k2 = k then v else dictGetStr t k

/-- The `PrintJob` dataclass (models.py:13-64).  These are exactly the declared
fields; in particular there is **no** `zpl_config` field, which is what makes
`processor._apply_zpl_config` raise `AttributeError` (see `applyZplConfig`).
`options` and `auth_config` hold parsed JSON objects, modelled as string
association lists. -/
structure PrintJob where
  printerHost : Str
  printerPort : Int
  printerType : Str
  contentType : Str
  content : Str
  title : Str := []
  source : Str := []
  qty : Int := 1
  expireAfter : Int := 0
  options : List (Str × Str) := []
  authConfig : List (Str × Str) := []
  correlationId : Str := []
deriving DecidableEq

/-- A decoded `SF_Printer_Event__e` payload (the dict handed to
`process_event`).  `none` models an absent (or JSON-null) field — both hit the
same `event.get(...) or default` path in the source.  The numeric fields carry
the wire value that `_int` coerces (its string-parsing fallback is not
exercised by any claim, so the value is modelled as already numeric); the two
JSON-text fields carry the object `_json` parses, for the same reason. -/
structure Event where
  typeC : Option Str := none
  printerHost : Option Str := none
  printerPort : Option Int := none
  printerType : Option Str := none
  contentType : Option Str := none
  content : Option Str := none
  jobTitle : Option Str := none
  source : Option Str := none
  qty : Option Int := none
  expireAfter : Option Int := none
  options : Option (List (Str × Str)) := none
  authConfig : Option (List (Str × Str)) := none
  correlationId : Option Str := none
deriving DecidableEq

/-- Python `event.get(k) or default` for string fields: both an absent field
and a present-but-falsy (empty) value yield the default. -/
def pyOr (v : Option Str) (default : Str) : Str :=
  match v with
  | none => default
  | some s => if s = [] then default else s

/-- Default coercion in the style of `models._int` for the numeric fields, over already-numeric
wire values (see `Event`). -/
def pyIntOr (v : Option Int) (default : Int) : Int := v.getD default

/-- Model of `PrintJob.from_event` (models.py:34-64).  Total: every field degrades to
its default rather than failing. -/
def PrintJob.fromEvent (e : Event) : PrintJob :=
  { printerHost := e.printerHost.getD []
    printerPort := pyIntOr e.printerPort 9100
    printerType := pyStrip (pyLower (pyOr e.printerType (str "raw")))
    contentType := pyStrip (pyLower (pyOr e.contentType []))
    content := pyOr e.content []
    title := pyOr e.jobTitle []
    source := pyOr e.source []
    qty := max 1 (pyIntOr e.qty 1)
    expireAfter := pyIntOr e.expireAfter 0
    options := e.options.getD []
    authConfig := e.authConfig.getD []
    correlationId := pyOr e.correlationId [] }

/-- Model of `PrintJob.is_raw` (models.py:66-68): raw content type **or** a raw-socket
printer type.  Note the disjunct on `printer_type`: a `pdf_*` job aimed at a
`zpl`/`raw` printer is classified raw. -/
def PrintJob.isRaw (j : PrintJob) : Bool :=
  j.contentType = str "raw_uri" || j.contentType = str "raw_base64"
    || j.printerType = str "zpl" || j.printerType = str "raw"

/-- Model of `PrintJob.is_pdf` (models.py:70-72). -/
def PrintJob.isPdf (j : PrintJob) : Bool :=
  j.contentType = str "pdf_uri" || j.contentType = str "pdf_base64"

/-! ## `jobs/processor.py` — auth resolution for `*_uri` downloads -/

/-- The auth object handed to `requests.get`: Basic tuple, `HTTPDigestAuth`,
or the `_BearerAuth` hook. -/
inductive HttpAuth where
  | basic (user pwd : Str)
  | digest (user pwd : Str)
  | bearer (token : Str)
deriving DecidableEq

/-- Model of `processor._build_requests_auth` (processor.py:193-221). -/
def buildRequestsAuth (cfg : List (Str × Str)) : Option HttpAuth :=
  if cfg = [] then none
  else
    let authType := dictGetStr cfg (str "type")
    let user := dictGetStr cfg (str "user")
    let pwd := dictGetStr cfg (str "pass")
    if authType = str "BearerToken" then
      let token := dictGetStr cfg (str "token")
      if token ≠ [] then some (.bearer token) else none
    else if (authType = str "BasicAuth" ∨ authType = str "DigestAuth") ∧ user ≠ [] then
      if authType = str "DigestAuth" then some (.digest user pwd) else some (.basic user pwd)
    else none

/-- The auth-selection ladder of the `*_uri` branch of `_resolve_content`
(processor.py:168-181): explicit `Auth_Config__c` first; else auto-inject the
server Bearer token for Salesforce URLs; else no auth. -/
def chooseAuth (job : PrintJob) (ctx : SfContext) : Option HttpAuth :=
  if job.authConfig ≠ [] then buildRequestsAuth job.authConfig
  else if isSalesforceUrl ctx job.content then some (.bearer ctx.accessToken)
  else none

/-! ## `jobs/processor.py` — ZPL auto-configuration -/

/-- The bytes of `b'^PW'`. -/
def pwMarker : Bytes := (str "^PW").map Char.toNat

/-- The bytes of `b'^LL'`. -/
def llMarker : Bytes := (str "^LL").map Char.toNat

/-- Model of `processor._apply_zpl_config` (processor.py:121-158).  If the label already
contains `^PW` or `^LL`, it is returned unchanged (processor.py:134-136) —
before anything else is consulted.  Otherwise the source evaluates
`job.zpl_config` (processor.py:138); the `PrintJob` dataclass declares no such
attribute, so this raises `AttributeError` — modelled as the error case —
and neither the printer-info cache nor the probe is ever reached. -/
def applyZplConfig (job : PrintJob) (contentBytes : Bytes) : Except Unit Bytes :=
  if containsSeq pwMarker contentBytes || containsSeq llMarker contentBytes then
    .ok contentBytes
  else
    .error ()

/-! ## `jobs/processor.py` — the job pipeline

`_seen_correlations` (the module-global idempotency set) is passed in and out
as a duplicate-free `List Str`.  The externally observable driver and resolver
calls are recorded in a trace. -/

/-- The constant `MAX_IDEMPOTENCY_CACHE` (processor.py:37). -/
def maxIdempotencyCache : Nat := 10000

/-- The overflow-clearing insert of processor.py:66-68: when the set already
holds `MAX_IDEMPOTENCY_CACHE` or more ids, `_seen_correlations.clear()` runs
before the `add`, so the result is the singleton.  Only called on ids not in
the set (the membership check at processor.py:63 precedes it). -/
def seenInsert (seen : List Str) (cid : Str) : List Str :=
  if maxIdempotencyCache ≤ seen.length then [cid] else cid :: seen

/-- Externally observable calls issued while handling one event. -/
inductive Action where
  | resolve
  | printRawCall (data : Bytes)
  | printPdfCall (data : Bytes)
deriving DecidableEq

/-- Oracle for the external I/O a job performs: the outcome of the HTTP
download issued by `_resolve_content` (as a function of the auth it is given),
the outcome of the `i`-th `driver.print_raw` call, and the outcome of the
single `driver.print_pdf` call. -/
structure Effects where
  httpGet : Option HttpAuth → Except Unit Bytes
  printRaw : Nat → Bool
  printPdf : Bool

/-- Python `s.endswith(sfx)`. -/
def endsWith (sfx s : Str) : Bool :=
  containsSeq.startsWith sfx.reverse s.reverse

/-- Model of `processor._resolve_content` (processor.py:161-190).  `*_uri`: HTTP GET
with the auth chosen by `chooseAuth` (`resp.raise_for_status()` failures are
the oracle's error case).  `*_base64`: decode via `resolveBase64`.  Any other
content type raises `ValueError`. -/
def resolveContent (job : PrintJob) (ctx : SfContext) (fx : Effects) : Except Unit Bytes :=
  if endsWith (str "_uri") job.contentType then
    fx.httpGet (chooseAuth job ctx)
  else if endsWith (str "_base64") job.contentType then
    match resolveBase64 job.content with
    | some bs => .ok bs
    | none => .error ()
  else .error ()

/-- The copy loop of processor.py:101-105: for each of `qty` copies (call
indices from `i`), invoke `driver.print_raw`; the first failing call aborts
the job.  Returns the overall result and the calls issued. -/
def rawLoop (printRaw : Nat → Bool) (data : Bytes) : Nat → Nat → Bool × List Action
  | 0, _ => (true, [])
  | n + 1, i =>
    if printRaw i then
      let r := rawLoop printRaw data n (i + 1)
      (r.1, .printRawCall data :: r.2)
    else (false, [.printRawCall data])

/-- Everything `_handle_print_job` does after its idempotency block
(processor.py:71-118): the structural-field rejections, content resolution,
ZPL auto-config, and driver dispatch.  None of it reads or writes
`_seen_correlations`, so it is factored out without the set.  The
`except Exception` wrapping the dispatch (processor.py:94-116) is what turns
the `AttributeError` from `_apply_zpl_config` into a `False` return. -/
def handleJobBody (job : PrintJob) (ctx : SfContext) (fx : Effects) : Bool × List Action :=
  if job.printerHost = [] then (false, [])
  else if job.content = [] then (false, [])
  else
    match resolveContent job ctx fx with
    | .error _ => (false, [.resolve])
    | .ok contentBytes =>
      if job.isRaw then
        if job.printerType = str "zpl" then
          match applyZplConfig job contentBytes with
          | .error _ => (false, [.resolve])
          | .ok bytes2 =>
            let r := rawLoop fx.printRaw bytes2 (max 1 job.qty).toNat 0
            (r.1, .resolve :: r.2)
        else
          let r := rawLoop fx.printRaw contentBytes (max 1 job.qty).toNat 0
          (r.1, .resolve :: r.2)
      else if job.isPdf then
        (fx.printPdf, [.resolve, .printPdfCall contentBytes])
      else (false, [.resolve])

/-- Model of `processor._handle_print_job` (processor.py:56-118), after the
`PrintJob.from_event` step (total in this model — see `PrintJob.fromEvent`).
The idempotency block (processor.py:62-69): a non-empty, already-seen
correlation id short-circuits to `True` with no external calls; a non-empty
fresh id is recorded (with the overflow clear) before the body runs.  Returns
the handler's boolean result, the updated idempotency set, and the trace of
external calls. -/
def handleJob (job : PrintJob) (seen : List Str) (ctx : SfContext) (fx : Effects) :
    Bool × List Str × List Action :=
  if job.correlationId ≠ [] ∧ job.correlationId ∈ seen then
    (true, seen, [])
  else
    let seen1 := if job.correlationId ≠ [] then seenInsert seen job.correlationId else seen
    let r := handleJobBody job ctx fx
    (r.1, seen1, r.2)

/-- Model of `processor.process_event` (processor.py:40-52): route on the trimmed,
lower-cased `Type__c`; only `print_job` is handled, every other type is
logged and dropped with a `False` result. -/
def processEvent (e : Event) (seen : List Str) (ctx : SfContext) (fx : Effects) :
    Bool × List Str × List Action :=
  if pyLower (pyStrip (pyOr e.typeC [])) = str "print_job" then
    handleJob (PrintJob.fromEvent e) seen ctx fx
  else
    (false, seen, [])

/-! ## `printers/drivers.py` — the printer-info cache -/

/-- The dict `_parse_sgd_response` / `get_printer_info` trade in: zero or more
of `dpi`, `width_dots`, `darkness`. -/
structure PrinterInfo where
  dpi : Option Int := none
  widthDots : Option Int := none
  darkness : Option Int := none
deriving DecidableEq

/-- The empty dict (`{}`), i.e. Python-falsy printer info. -/
def PrinterInfo.isEmptyDict (i : PrinterInfo) : Bool :=
  i.dpi = none ∧ i.widthDots = none ∧ i.darkness = none

/-- The f-string cache key `f"{host}:{port}"` (drivers.py:99). -/
def infoCacheKey (host : Str) (port : Int) : Str :=
  host ++ str ":" ++ (toString port).data

/-- Lookup in the module-global `_printer_info_cache` dict, modelled as an
association list. -/
def cacheFind (cache : List (Str × PrinterInfo)) (k : Str) : Option PrinterInfo :=
  match cache with
  | [] => none
  | (k2, v) :: t => if k2 = k then some v else cacheFind t k

/-- Model of `drivers.get_printer_info` (drivers.py:93-106).  The SGD device query
(`query_zebra_info`, pure socket I/O plus response parsing) is the oracle
`probe`.  Returns the info handed back to the caller, the updated cache, and
whether a fresh probe was issued.  A non-empty probe result is stored under
the key; an empty one leaves the cache untouched and returns `{}` directly. -/
def getPrinterInfo (cache : List (Str × PrinterInfo)) (probe : PrinterInfo)
    (host : Str) (port : Int) : PrinterInfo × List (Str × PrinterInfo) × Bool :=
  let key := infoCacheKey host port
  match cacheFind cache key with
  | none =>
    if probe.isEmptyDict then ({}, cache, true)
    else
      let cache2 := (key, probe) :: cache
      ((cacheFind cache2 key).getD {}, cache2, true)
  | some _ => ((cacheFind cache key).getD {}, cache, false)

/-! ## Concrete fixtures used by witnesses and counterexamples -/

/-- A Salesforce context as `set_sf_credentials` would leave it. -/
def ctx0 : SfContext :=
  { accessToken := str "tok0", instanceUrl := str "https://acme.my.salesforce.com" }

/-- Effects oracle on which every driver call succeeds and no HTTP download is
available. -/
def fxAllOk : Effects :=
  { httpGet := fun _ => Except.error (), printRaw := fun _ => true, printPdf := true }

/-- A plain raw-socket job: two copies of a base64 label to a `raw` printer. -/
def jobRaw2 : PrintJob :=
  { printerHost := str "h", printerPort := 9100, printerType := str "raw"
    contentType := str "raw_base64", content := str "aGk=", qty := 2 }

/-- A document job aimed at a raw-socket printer (three copies requested). -/
def jobPdfOnRaw : PrintJob :=
  { printerHost := str "h", printerPort := 9100, printerType := str "raw"
    contentType := str "pdf_base64", content := str "aGk=", qty := 3 }

/-- A document job aimed at a CUPS printer. -/
def jobPdfOnCups : PrintJob :=
  { printerHost := str "h", printerPort := 631, printerType := str "cups"
    contentType := str "pdf_base64", content := str "aGk=", qty := 3 }

/-- A `pdf_uri` job with no explicit auth whose URL is on a *different*
Salesforce org than `ctx0`'s instance. -/
def jobSfEvil : PrintJob :=
  { printerHost := str "h", printerPort := 631, printerType := str "cups"
    contentType := str "pdf_uri", content := str "https://evil.salesforce.com/f" }

/-- A `pdf_uri` job with no explicit auth whose URL is on `ctx0`'s own instance. -/
def jobSfOwn : PrintJob :=
  { printerHost := str "h", printerPort := 631, printerType := str "cups"
    contentType := str "pdf_uri"
    content := str "https://acme.my.salesforce.com/services/data/f" }

/-- A well-formed `print_job` event carrying a correlation id. -/
def eventCorr (c : String) : Event :=
  { typeC := some (str "print_job"), printerHost := some (str "h")
    printerType := some (str "raw"), contentType := some (str "raw_base64")
    content := some (str "aGk="), correlationId := some (str c) }

/-- A `print_job` event with a correlation id but no printer host. -/
def eventNoHost (c : String) : Event :=
  { typeC := some (str "print_job")
    printerType := some (str "raw"), contentType := some (str "raw_base64")
    content := some (str "aGk="), correlationId := some (str c) }

/-- A non-empty probe result (what `query_zebra_info` reports for a healthy
203-dpi device). -/
def probeX : PrinterInfo := { dpi := some 203, widthDots := some 800, darkness := some 10 }

/-- The §-scenario ZPL event: `raw_base64` content decoding to
`^XA^FO50,50^FDHi` (no `^PW`/`^LL`), two copies requested. -/
def zplEvent : Event :=
  { typeC := some (str "print_job"), printerHost := some (str "10.0.0.5")
    printerPort := some 9100, printerType := some (str "zpl")
    contentType := some (str "raw_base64")
    content := some (str "XlhBXkZPNTAsNTBeRkRIaQ=="), qty := some 2 }

end SfPrinter

namespace SfPrinter

/-! ## Shared lemmas -/

/-- Boolean `containsSeq.startsWith` agrees with the list-prefix relation. -/
theorem startsWith_spec {α : Type} [DecidableEq α] (n : List α) :
    ∀ l : List α, containsSeq.startsWith n l = true ↔ n <+: l := by
  induction n with
  | nil => intro l; simp only [containsSeq.startsWith, true_iff]; exact List.nil_prefix
  | cons a t ih =>
    intro l
    cases l with
    | nil => simp [containsSeq.startsWith]
    | cons b u => simp [containsSeq.startsWith, ih, List.cons_prefix_cons]

/-- Boolean `containsSeq` agrees with the list-infix relation (Python `in`). -/
theorem containsSeq_spec {α : Type} [DecidableEq α] (n : List α) :
    ∀ l : List α, containsSeq n l = true ↔ n <:+: l := by
  intro l
  induction l with
  | nil => simp [containsSeq, List.infix_nil]
  | cons b t ih =>
    simp [containsSeq, startsWith_spec, ih, List.infix_cons_iff]

theorem dropWhile_eq_self_of_head {α : Type} (q : α → Bool) (l : List α)
    (h : ∀ x, l.head? = some x → q x = false) : l.dropWhile q = l := by
  cases l with
  | nil => rfl
  | cons a t => simp [List.dropWhile, h a rfl]

theorem pyStrip_eq_self (l : Str)
    (h1 : ∀ x, l.head? = some x → isPySpace x = false)
    (h2 : ∀ x, l.reverse.head? = some x → isPySpace x = false) :
    pyStrip l = l := by
  unfold pyStrip
  rw [dropWhile_eq_self_of_head _ _ h1, dropWhile_eq_self_of_head _ _ h2,
    List.reverse_reverse]

theorem pyStrip_eq_self_of_mem (l : Str) (h : ∀ c ∈ l, isPySpace c = false) :
    pyStrip l = l := by
  refine pyStrip_eq_self l (fun x hx => h x ?_) (fun x hx => ?_)
  · exact List.mem_of_mem_head? (by simp [hx])
  · exact h x ((List.mem_reverse).mp (List.mem_of_mem_head? (by simp [hx])))

theorem mem_seenInsert (seen : List Str) (c : Str) : c ∈ seenInsert seen c := by
  unfold seenInsert; split <;> simp

theorem seenInsert_length_le (seen : List Str) (c : Str)
    (h : seen.length ≤ maxIdempotencyCache) :
    (seenInsert seen c).length ≤ maxIdempotencyCache := by
  unfold seenInsert
  split
  · simp [maxIdempotencyCache]
  · rename_i hlt
    simp only [List.length_cons]
    omega

/-- The idempotency set a `_handle_print_job` call leaves behind: unchanged on
a duplicate hit or an empty correlation id, otherwise the (overflow-clearing)
insert of the id. -/
theorem handleJob_seen_eq (job : PrintJob) (seen : List Str) (ctx : SfContext) (fx : Effects) :
    (handleJob job seen ctx fx).2.1 =
      if job.correlationId ≠ [] ∧ job.correlationId ∈ seen then seen
      else if job.correlationId ≠ [] then seenInsert seen job.correlationId else seen := by
  unfold handleJob
  split
  · rfl
  · rfl

/-- After handling a job with a non-empty correlation id, that id is in the set. -/
theorem handleJob_corr_mem (job : PrintJob) (seen : List Str) (ctx : SfContext) (fx : Effects)
    (h : job.correlationId ≠ []) :
    job.correlationId ∈ (handleJob job seen ctx fx).2.1 := by
  rw [handleJob_seen_eq]
  by_cases hm : job.correlationId ∈ seen
  · rw [if_pos ⟨h, hm⟩]; exact hm
  · rw [if_neg (fun hc => hm hc.2), if_pos h]
    exact mem_seenInsert seen job.correlationId

/-- One processed event keeps the idempotency set within its bound. -/
theorem processEvent_seen_length (e : Event) (seen : List Str) (ctx : SfContext) (fx : Effects)
    (h : seen.length ≤ maxIdempotencyCache) :
    ((processEvent e seen ctx fx).2.1).length ≤ maxIdempotencyCache := by
  unfold processEvent
  split
  · rw [handleJob_seen_eq]
    split
    · exact h
    · split
      · exact seenInsert_length_le _ _ h
      · exact h
  · exact h

/-- The marker early-return of processor.py:134-136. -/
theorem applyZplConfig_marked (job : PrintJob) (content : Bytes)
    (h : pwMarker <:+: content ∨ llMarker <:+: content) :
    applyZplConfig job content = Except.ok content := by
  unfold applyZplConfig
  rcases h with h | h
  · rw [if_pos]; simp [(containsSeq_spec pwMarker content).mpr h]
  · rw [if_pos]; simp [(containsSeq_spec llMarker content).mpr h]

/-- Claim C8: a ZPL payload that already contains `^PW` or `^LL` passes through
the auto-config step completely unchanged, whatever the job carries — the
marker test at processor.py:134-136 returns the bytes before any config
source (explicit, cached, or probed) is consulted. -/
theorem C8_marked_payload_unchanged (job : PrintJob) (content : Bytes)
    (h : pwMarker <:+: content ∨ llMarker <:+: content) :
    applyZplConfig job content = Except.ok content :=
  applyZplConfig_marked job content h

/-- Witness for C8 on the self-configuring label `^XA^PW800^XZ`. -/
theorem C8_witness :
    applyZplConfig jobRaw2 ((str "^XA^PW800^XZ").map Char.toNat)
      = Except.ok ((str "^XA^PW800^XZ").map Char.toNat) :=
  C8_marked_payload_unchanged jobRaw2 _ (Or.inl (by decide))

/-- Claim C9: on a cache miss, an empty probe result is returned as `{}` and
not stored (so the next request for the same `host:port` probes again), while
a non-empty probe result is stored under `host:port` and a later request
returns it from the cache without probing. -/
theorem C9_probe_cache_policy (cache : List (Str × PrinterInfo))
    (probe probe2 : PrinterInfo) (host : Str) (port : Int)
    (hmiss : cacheFind cache (infoCacheKey host port) = none) :
    (probe.isEmptyDict = true →
      getPrinterInfo cache probe host port = ({}, cache, true)
      ∧ (getPrinterInfo cache probe2 host port).2.2 = true)
    ∧ (probe.isEmptyDict = false →
      getPrinterInfo cache probe host port
        = (probe, (infoCacheKey host port, probe) :: cache, true)
      ∧ getPrinterInfo ((infoCacheKey host port, probe) :: cache) probe2 host port
        = (probe, (infoCacheKey host port, probe) :: cache, false)) := by
  constructor
  · intro he
    constructor
    · simp only [getPrinterInfo, hmiss]
      simp [he]
    · simp only [getPrinterInfo, hmiss]
      split <;> rfl
  · intro hne
    constructor
    · simp only [getPrinterInfo, hmiss]
      simp [hne, cacheFind]
    · simp only [getPrinterInfo, cacheFind, if_pos rfl]
      rfl

/-- Witness for C9: fresh cache, non-empty probe; the second call is served
from the cache without probing. -/
theorem C9_witness :
    getPrinterInfo [] probeX (str "p") 9100
      = (probeX, [(infoCacheKey (str "p") 9100, probeX)], true)
    ∧ getPrinterInfo [(infoCacheKey (str "p") 9100, probeX)] {} (str "p") 9100
      = (probeX, [(infoCacheKey (str "p") 9100, probeX)], false) :=
  (C9_probe_cache_policy [] probeX {} (str "p") 9100 rfl).2 (by decide)

/-- Claim C2: two `print_job` events carrying the same non-empty correlation
id, processed in sequence: the second call returns `True` with an empty
trace — no driver method is invoked and no content resolution is performed.
The id is recorded by the first call whatever its outcome, so the second hits
the idempotency short-circuit. -/
theorem C2_duplicate_correlation_suppressed (e1 e2 : Event) (seen0 : List Str)
    (ctx1 ctx2 : SfContext) (fx1 fx2 : Effects)
    (h1 : pyLower (pyStrip (pyOr e1.typeC [])) = str "print_job")
    (h2 : pyLower (pyStrip (pyOr e2.typeC [])) = str "print_job")
    (hc : (PrintJob.fromEvent e2).correlationId = (PrintJob.fromEvent e1).correlationId)
    (hne : (PrintJob.fromEvent e1).correlationId ≠ []) :
    processEvent e2 (processEvent e1 seen0 ctx1 fx1).2.1 ctx2 fx2
      = (true, (processEvent e1 seen0 ctx1 fx1).2.1, []) := by
  have hseen1 : (processEvent e1 seen0 ctx1 fx1).2.1
      = (handleJob (PrintJob.fromEvent e1) seen0 ctx1 fx1).2.1 := by
    unfold processEvent; rw [if_pos h1]
  have hmem : (PrintJob.fromEvent e1).correlationId ∈ (processEvent e1 seen0 ctx1 fx1).2.1 := by
    rw [hseen1]; exact handleJob_corr_mem _ _ _ _ hne
  generalize (processEvent e1 seen0 ctx1 fx1).2.1 = s1 at hmem ⊢
  unfold processEvent
  rw [if_pos h2]
  unfold handleJob
  rw [if_pos ⟨by rw [hc]; exact hne, by rw [hc]; exact hmem⟩]

/-- Witness for C2: the same well-formed event submitted twice. -/
theorem C2_witness :
    processEvent (eventCorr "abc")
        (processEvent (eventCorr "abc") [] ctx0 fxAllOk).2.1 ctx0 fxAllOk
      = (true, (processEvent (eventCorr "abc") [] ctx0 fxAllOk).2.1, []) :=
  C2_duplicate_correlation_suppressed (eventCorr "abc") (eventCorr "abc") [] ctx0 ctx0
    fxAllOk fxAllOk (by decide) (by decide) rfl (by decide)

/-- Claim C10: a `print_job` event with a non-empty fresh correlation id that
is rejected for a missing `printer_host` or missing content still records the
id before rejecting (the idempotency block runs first), so a corrected
resubmission under the same id is answered `True` with no driver call and no
content resolution. -/
theorem C10_rejection_records_correlation (e e2 : Event) (seen0 : List Str)
    (ctx ctx2 : SfContext) (fx fx2 : Effects)
    (h1 : pyLower (pyStrip (pyOr e.typeC [])) = str "print_job")
    (hne : (PrintJob.fromEvent e).correlationId ≠ [])
    (hfresh : (PrintJob.fromEvent e).correlationId ∉ seen0)
    (hrej : (PrintJob.fromEvent e).printerHost = [] ∨ (PrintJob.fromEvent e).content = [])
    (h2 : pyLower (pyStrip (pyOr e2.typeC [])) = str "print_job")
    (hc : (PrintJob.fromEvent e2).correlationId = (PrintJob.fromEvent e).correlationId) :
    processEvent e seen0 ctx fx
      = (false, seenInsert seen0 (PrintJob.fromEvent e).correlationId, [])
    ∧ processEvent e2 (processEvent e seen0 ctx fx).2.1 ctx2 fx2
      = (true, (processEvent e seen0 ctx fx).2.1, []) := by
  have hbody : handleJobBody (PrintJob.fromEvent e) ctx fx = (false, []) := by
    unfold handleJobBody
    rcases hrej with h | h
    · rw [if_pos h]
    · by_cases hh : (PrintJob.fromEvent e).printerHost = []
      · rw [if_pos hh]
      · rw [if_neg hh, if_pos h]
  have hfirst : processEvent e seen0 ctx fx
      = (false, seenInsert seen0 (PrintJob.fromEvent e).correlationId, []) := by
    unfold processEvent
    rw [if_pos h1]
    unfold handleJob
    rw [if_neg (fun hcons => hfresh hcons.2)]
    simp only [hbody, if_pos hne]
  refine ⟨hfirst, ?_⟩
  have hmem : (PrintJob.fromEvent e).correlationId ∈ (processEvent e seen0 ctx fx).2.1 := by
    rw [hfirst]; exact mem_seenInsert _ _
  generalize (processEvent e seen0 ctx fx).2.1 = s1 at hmem ⊢
  unfold processEvent
  rw [if_pos h2]
  unfold handleJob
  rw [if_pos ⟨by rw [hc]; exact hne, by rw [hc]; exact hmem⟩]

/-- Witness for C10: a host-less event, then a corrected resubmission under
the same correlation id. -/
theorem C10_witness :
    processEvent (eventNoHost "xyz") [] ctx0 fxAllOk
      = (false, seenInsert [] (PrintJob.fromEvent (eventNoHost "xyz")).correlationId, [])
    ∧ processEvent (eventCorr "xyz")
        (processEvent (eventNoHost "xyz") [] ctx0 fxAllOk).2.1 ctx0 fxAllOk
      = (true, (processEvent (eventNoHost "xyz") [] ctx0 fxAllOk).2.1, []) :=
  C10_rejection_records_correlation (eventNoHost "xyz") (eventCorr "xyz") [] ctx0 ctx0
    fxAllOk fxAllOk (by decide) (by decide) (List.not_mem_nil _) (Or.inl rfl) (by decide) rfl

/-- Claim C4: across any sequence of processed events the idempotency set
never exceeds 10,000 entries; and when a fresh non-empty correlation id
arrives while the set already holds 10,000 (or more) entries, the whole set is
cleared before the insert, leaving exactly the singleton of the new id. -/
theorem C4_idempotency_bound (ctx : SfContext) (fx : Effects) (es : List Event)
    (seen0 : List Str) (h0 : seen0.length ≤ maxIdempotencyCache) :
    (es.foldl (fun seen e => (processEvent e seen ctx fx).2.1) seen0).length
      ≤ maxIdempotencyCache
    ∧ ∀ (e : Event) (seen : List Str),
      maxIdempotencyCache ≤ seen.length →
      pyLower (pyStrip (pyOr e.typeC [])) = str "print_job" →
      (PrintJob.fromEvent e).correlationId ≠ [] →
      (PrintJob.fromEvent e).correlationId ∉ seen →
      (processEvent e seen ctx fx).2.1 = [(PrintJob.fromEvent e).correlationId] := by
  constructor
  · induction es generalizing seen0 with
    | nil => simpa using h0
    | cons e t ih =>
      simp only [List.foldl_cons]
      exact ih _ (processEvent_seen_length e seen0 ctx fx h0)
  · intro e seen hfull he hne hfresh
    unfold processEvent
    rw [if_pos he, handleJob_seen_eq, if_neg (fun hcons => hfresh hcons.2), if_pos hne]
    unfold seenInsert
    rw [if_pos hfull]

/-- Witness for C4: one event folded from the empty set stays within the
bound, and a fresh id arriving on a full (10,000-entry) set leaves exactly
its singleton. -/
theorem C4_witness :
    ([eventCorr "a"].foldl (fun seen e => (processEvent e seen ctx0 fxAllOk).2.1) []).length
      ≤ maxIdempotencyCache
    ∧ (processEvent (eventCorr "fresh") (List.replicate 10000 (str "x")) ctx0 fxAllOk).2.1
      = [(PrintJob.fromEvent (eventCorr "fresh")).correlationId] := by
  constructor
  · exact (C4_idempotency_bound ctx0 fxAllOk [eventCorr "a"] []
      (by simp [maxIdempotencyCache])).1
  · refine (C4_idempotency_bound ctx0 fxAllOk [] [] (by simp [maxIdempotencyCache])).2
      (eventCorr "fresh") (List.replicate 10000 (str "x"))
      (by rw [List.length_replicate]; decide) (by decide) (by decide) ?_
    have hcorr : (PrintJob.fromEvent (eventCorr "fresh")).correlationId = str "fresh" := rfl
    rw [hcorr]
    simp only [List.mem_replicate]
    exact fun h => absurd h.2 (by decide)

/-- The copy loop when every `print_raw` call succeeds: all copies are sent
and the loop reports success. -/
theorem rawLoop_all_ok (f : Nat → Bool) (d : Bytes) :
    ∀ (n i : Nat), (∀ j, j < n → f (i + j) = true) →
    rawLoop f d n i = (true, List.replicate n (Action.printRawCall d)) := by
  intro n
  induction n with
  | zero => intro i _; rfl
  | succ m ih =>
    intro i h
    have h0 : f i = true := by simpa using h 0 (Nat.succ_pos m)
    have hrest := ih (i + 1) (fun j hj => by
      have := h (j + 1) (by omega)
      rwa [show i + (j + 1) = i + 1 + j by omega] at this)
    simp [rawLoop, h0, hrest, List.replicate_succ]

/-- The copy loop when call `k` (0-based) is the first to fail: exactly
`k + 1` calls are issued and the loop reports failure. -/
theorem rawLoop_first_fail (f : Nat → Bool) (d : Bytes) :
    ∀ (n i k : Nat), k < n → (∀ j, j < k → f (i + j) = true) → f (i + k) = false →
    rawLoop f d n i = (false, List.replicate (k + 1) (Action.printRawCall d)) := by
  intro n
  induction n with
  | zero => intro i k hk _ _; omega
  | succ m ih =>
    intro i k hk hpre hfail
    cases k with
    | zero =>
      have h0 : f i = false := by simpa using hfail
      simp [rawLoop, h0, List.replicate_succ]
    | succ k0 =>
      have h0 : f i = true := by simpa using hpre 0 (Nat.succ_pos k0)
      have hrest := ih (i + 1) k0 (by omega)
        (fun j hj => by
          have := hpre (j + 1) (by omega)
          rwa [show i + (j + 1) = i + 1 + j by omega] at this)
        (by rwa [show i + (k0 + 1) = i + 1 + k0 by omega] at hfail)
      simp [rawLoop, h0, hrest, List.replicate_succ]

/-- Claim C3: a raw-path job with `qty = n ≥ 1` that reaches the dispatch loop
(host and content present, content resolved to `b`, and — because of the
missing `zpl_config` attribute, see C1 — a `zpl`-typed job only when its
payload is already self-configured): if every `print_raw` call succeeds,
exactly `n` calls are issued and the handler returns `True`; if 0-based call
`k` is the first to fail, exactly `k + 1` calls are issued, no further copy is
attempted, and the handler returns `False`. -/
theorem C3_qty_copy_loop (job : PrintJob) (seen : List Str) (ctx : SfContext) (fx : Effects)
    (n : Nat) (hq : job.qty = (n : Int)) (hn : 1 ≤ n)
    (hraw : job.isRaw = true)
    (hdup : ¬(job.correlationId ≠ [] ∧ job.correlationId ∈ seen))
    (hhost : job.printerHost ≠ []) (hcont : job.content ≠ [])
    (b : Bytes) (hres : resolveContent job ctx fx = Except.ok b)
    (hzpl : job.printerType = str "zpl" → pwMarker <:+: b ∨ llMarker <:+: b) :
    ((∀ i, i < n → fx.printRaw i = true) →
      handleJob job seen ctx fx
        = (true,
           if job.correlationId ≠ [] then seenInsert seen job.correlationId else seen,
           Action.resolve :: List.replicate n (Action.printRawCall b)))
    ∧ (∀ k, k < n → (∀ i, i < k → fx.printRaw i = true) → fx.printRaw k = false →
      handleJob job seen ctx fx
        = (false,
           if job.correlationId ≠ [] then seenInsert seen job.correlationId else seen,
           Action.resolve :: List.replicate (k + 1) (Action.printRawCall b))) := by
  have hmax : (max 1 job.qty).toNat = n := by rw [hq]; omega
  have hbody : handleJobBody job ctx fx
      = ((rawLoop fx.printRaw b n 0).1, Action.resolve :: (rawLoop fx.printRaw b n 0).2) := by
    unfold handleJobBody
    rw [if_neg hhost, if_neg hcont, hres]
    by_cases hz : job.printerType = str "zpl"
    · simp only [hraw, if_true, if_pos hz, applyZplConfig_marked job b (hzpl hz), hmax]
    · simp only [hraw, if_true, if_neg hz, hmax]
  have hjob : handleJob job seen ctx fx
      = ((rawLoop fx.printRaw b n 0).1,
         if job.correlationId ≠ [] then seenInsert seen job.correlationId else seen,
         Action.resolve :: (rawLoop fx.printRaw b n 0).2) := by
    unfold handleJob
    rw [if_neg hdup]
    simp only [hbody]
  constructor
  · intro hall
    rw [hjob, rawLoop_all_ok fx.printRaw b n 0 (fun j hj => by simpa using hall j hj)]
  · intro k hk hpre hfail
    rw [hjob, rawLoop_first_fail fx.printRaw b n 0 k hk
      (fun j hj => by simpa using hpre j hj) (by simpa using hfail)]

/-- Witness for C3: two copies of a raw label, every call succeeding. -/
theorem C3_witness :
    handleJob jobRaw2 [] ctx0 fxAllOk
      = (true,
         if jobRaw2.correlationId ≠ [] then seenInsert [] jobRaw2.correlationId else [],
         Action.resolve :: List.replicate 2 (Action.printRawCall [104, 105])) :=
  (C3_qty_copy_loop jobRaw2 [] ctx0 fxAllOk 2 rfl (by decide) (by decide)
    (fun hc => hc.1 rfl) (by decide) (by decide) [104, 105] rfl
    (fun hz => absurd hz (by decide))).1 (fun i _ => rfl)

/-- Counterexample to C5 as stated: a `pdf_base64` job aimed at a `raw`
printer is classified raw by `PrintJob.is_raw`, so it goes down the raw path —
three `print_raw` calls (the qty loop) and no `print_pdf` call at all. -/
theorem C5_counterexample :
    jobPdfOnRaw.contentType = str "pdf_base64"
    ∧ handleJob jobPdfOnRaw [] ctx0 fxAllOk
      = (true, [], Action.resolve :: List.replicate 3 (Action.printRawCall [104, 105])) := by
  constructor
  · rfl
  · decide

/-- Claim C5 (amended): a document job is dispatched exactly once via
`print_pdf` **provided** the job is not raw-classified, i.e. its
`printer_type` is not `zpl`/`raw` (otherwise `is_raw` wins and the job goes
down the raw path with the qty loop — see the counterexample).  The qty field
is not consulted on the document path. -/
theorem C5_document_dispatch (job : PrintJob) (seen : List Str) (ctx : SfContext) (fx : Effects)
    (hpdf : job.isPdf = true) (hnraw : job.isRaw = false)
    (hdup : ¬(job.correlationId ≠ [] ∧ job.correlationId ∈ seen))
    (hhost : job.printerHost ≠ []) (hcont : job.content ≠ [])
    (b : Bytes) (hres : resolveContent job ctx fx = Except.ok b) :
    handleJob job seen ctx fx
      = (fx.printPdf,
         if job.correlationId ≠ [] then seenInsert seen job.correlationId else seen,
         [Action.resolve, Action.printPdfCall b]) := by
  unfold handleJob
  rw [if_neg hdup]
  unfold handleJobBody
  rw [if_neg hhost, if_neg hcont, hres]
  simp only [hnraw, hpdf, Bool.false_eq_true, if_false, if_true]

/-- Witness for C5 (amended): a document job on a CUPS printer dispatches one
`print_pdf` call even though three copies were requested. -/
theorem C5_witness :
    handleJob jobPdfOnCups [] ctx0 fxAllOk
      = (true,
         if jobPdfOnCups.correlationId ≠ [] then seenInsert [] jobPdfOnCups.correlationId else [],
         [Action.resolve, Action.printPdfCall [104, 105]]) :=
  C5_document_dispatch jobPdfOnCups [] ctx0 fxAllOk (by decide) (by decide)
    (fun hc => hc.1 rfl) (by decide) (by decide) [104, 105] rfl

/-- Characterisation of `is_salesforce_url`: an instance URL is stored, the URL is
non-empty, and the URL starts with the instance URL or contains
`.salesforce.com` case-insensitively. -/
theorem isSalesforceUrl_iff (ctx : SfContext) (url : Str) :
    isSalesforceUrl ctx url = true
      ↔ ctx.instanceUrl ≠ [] ∧ url ≠ []
        ∧ (ctx.instanceUrl <+: url ∨ str ".salesforce.com" <:+: pyLower url) := by
  unfold isSalesforceUrl
  by_cases h1 : ctx.instanceUrl = [] ∨ url = []
  · rw [if_pos h1]
    simp only [Bool.false_eq_true, false_iff]
    tauto
  · rw [if_neg h1]
    push_neg at h1
    simp [startsWith_spec, containsSeq_spec, h1.1, h1.2]

/-- Counterexample to C6 as stated: a job with empty `auth_config` whose URL
is on a *different* Salesforce org than the authenticated instance still gets
the server Bearer token auto-attached (the `.salesforce.com` substring
disjunct of `is_salesforce_url`), although the URL does not belong to the
authenticated instance. -/
theorem C6_counterexample :
    jobSfEvil.authConfig = []
    ∧ chooseAuth jobSfEvil ctx0 = some (HttpAuth.bearer (str "tok0"))
    ∧ ¬ ctx0.instanceUrl <+: jobSfEvil.content := by
  refine ⟨rfl, by decide, by decide⟩

/-- Claim C6 (amended): for a job with empty `auth_config`, the server Bearer
token is attached iff the context holds an instance URL, the content URL is
non-empty, and the URL either starts with the instance URL **or contains
`.salesforce.com` case-insensitively** — the latter disjunct also matches
URLs outside the authenticated instance. -/
theorem C6_bearer_attachment (job : PrintJob) (ctx : SfContext)
    (h : job.authConfig = []) :
    chooseAuth job ctx = some (HttpAuth.bearer ctx.accessToken)
      ↔ ctx.instanceUrl ≠ [] ∧ job.content ≠ []
        ∧ (ctx.instanceUrl <+: job.content
           ∨ str ".salesforce.com" <:+: pyLower job.content) := by
  unfold chooseAuth
  rw [if_neg (fun hne => hne h), ← isSalesforceUrl_iff]
  by_cases hs : isSalesforceUrl ctx job.content = true
  · simp [hs]
  · simp [hs]

/-- Witness for C6 (amended): a URL on the authenticated instance itself gets
the Bearer token. -/
theorem C6_witness :
    chooseAuth jobSfOwn ctx0 = some (HttpAuth.bearer ctx0.accessToken) :=
  (C6_bearer_attachment jobSfOwn ctx0 rfl).mpr
    ⟨by decide, by decide, Or.inl (by decide)⟩

/-- Claim C1, evaluated at the failing input (the spec §8 scenario): a
marker-less ZPL label with every driver call succeeding is *aborted* by the
auto-config step — content is resolved, then `_apply_zpl_config` evaluates
`job.zpl_config` (processor.py:138), an attribute the `PrintJob` dataclass
does not define, so `AttributeError` is raised, caught by the dispatch
handler, and the job returns `False` with no `print_raw` call ever issued —
contrary to the claimed prepend-and-dispatch behaviour. -/
theorem C1_zpl_autoconfig_aborts :
    processEvent zplEvent [] ctx0 fxAllOk = (false, [], [Action.resolve]) := by
  decide

theorem b64Val_not_space (c : Char) (h : (b64Val c).isSome = true) : isPySpace c = false := by
  cases hsp : isPySpace c
  · rfl
  · exfalso
    have hc : ((((c = ' ' ∨ c = '\t') ∨ c = '\n') ∨ c = '\r') ∨ c = '\x0b') ∨ c = '\x0c' := by
      simpa [isPySpace] using hsp
    rcases hc with ((((rfl | rfl) | rfl) | rfl) | rfl) | rfl <;> exact absurd h (by decide)

theorem containsSeq_single_not_mem {α : Type} [DecidableEq α] (a : α) (l : List α)
    (h : a ∉ l) : containsSeq [a] l = false := by
  cases hcs : containsSeq [a] l
  · rfl
  · exfalso
    obtain ⟨u, v, huv⟩ := (containsSeq_spec [a] l).mp hcs
    exact h (by rw [← huv]; simp)

theorem afterFirstComma_append (pre post : Str) (h : ',' ∉ pre) :
    afterFirstComma (pre ++ ',' :: post) = post := by
  induction pre with
  | nil => simp [afterFirstComma]
  | cons a t ih =>
    have ha : ¬(a = ',') := fun hc => h (by rw [hc]; exact List.mem_cons_self ',' t)
    simp only [List.cons_append, afterFirstComma, if_neg ha]
    exact ih (fun hm => h (List.mem_cons_of_mem a hm))

/-- Claim C7: re-padding tolerance and data-URI stripping of the base64
resolver.  For a canonically valid base64 payload `body ++ p × '='` (alphabet
body, `p ≤ 2` pad characters, total length a multiple of 4): resolving the
payload with its trailing `=` stripped gives the same result as resolving the
padded payload, and resolving it behind any comma-free `data:...`-style
prefix followed by a comma also gives the same result. -/
theorem C7_base64_repad_and_data_uri (body mid : Str) (p : Nat)
    (hbody : ∀ c ∈ body, (b64Val c).isSome = true)
    (hp : p ≤ 2)
    (hlen : (body.length + p) % 4 = 0)
    (hmid : ',' ∉ mid) :
    resolveBase64 body = resolveBase64 (body ++ List.replicate p '=')
    ∧ resolveBase64 (str "data:" ++ mid ++ [','] ++ (body ++ List.replicate p '='))
      = resolveBase64 (body ++ List.replicate p '=') := by
  set s : Str := body ++ List.replicate p '=' with hs
  -- characters of the padded payload
  have hs_mem : ∀ c ∈ s, (b64Val c).isSome = true ∨ c = '=' := by
    intro c hcmem
    rcases (List.mem_append).mp hcmem with hcm | hcm
    · exact Or.inl (hbody c hcm)
    · exact Or.inr (List.eq_of_mem_replicate hcm)
  have hs_nospace : ∀ c ∈ s, isPySpace c = false := by
    intro c hcmem
    rcases hs_mem c hcmem with hv | rfl
    · exact b64Val_not_space c hv
    · rfl
  have hbody_nospace : ∀ c ∈ body, isPySpace c = false :=
    fun c hcm => b64Val_not_space c (hbody c hcm)
  have hcomma_body : ',' ∉ body := by
    intro hm
    exact absurd (hbody ',' hm) (by decide)
  have hcomma_s : ',' ∉ s := by
    intro hm
    rcases hs_mem ',' hm with hv | hv
    · exact absurd hv (by decide)
    · exact absurd hv (by decide)
  -- the re-padding arithmetic
  have hlen_s : s.length % 4 = 0 := by
    rw [hs]
    simp only [List.length_append, List.length_replicate]
    omega
  have hpad_body : (4 - body.length % 4) % 4 = p := by omega
  -- resolving the stripped payload: strip and prefix checks are no-ops,
  -- re-padding restores exactly the p pad characters
  have hres_body : resolveBase64 body = b64DecodeGroups s := by
    unfold resolveBase64
    dsimp only
    rw [pyStrip_eq_self_of_mem body hbody_nospace,
      containsSeq_single_not_mem ',' body hcomma_body]
    simp only [Bool.false_and, Bool.false_eq_true, if_false]
    rw [hpad_body, ← hs]
  -- resolving the padded payload: everything is a no-op
  have hres_s : resolveBase64 s = b64DecodeGroups s := by
    unfold resolveBase64
    dsimp only
    rw [pyStrip_eq_self_of_mem s hs_nospace,
      containsSeq_single_not_mem ',' s hcomma_s]
    simp only [Bool.false_and, Bool.false_eq_true, if_false]
    rw [show (4 - s.length % 4) % 4 = 0 by omega]
    simp
  refine ⟨hres_body.trans hres_s.symm, ?_⟩
  -- the data-URI prefixed payload
  set pre : Str := str "data:" ++ mid with hpre
  have hcomma_pre : ',' ∉ pre := by
    intro hm
    rcases (List.mem_append).mp hm with hcm | hcm
    · exact absurd hcm (by decide)
    · exact hmid hcm
  have hassoc : str "data:" ++ mid ++ [','] ++ s = pre ++ ',' :: s := by
    simp [hpre, List.append_assoc]
  rw [hassoc, hres_s]
  unfold resolveBase64
  dsimp only
  -- strip is a no-op: the first character is 'd', the last is a character of
  -- the payload (or the separating comma when the payload is empty)
  have hstrip : pyStrip (pre ++ ',' :: s) = pre ++ ',' :: s := by
    refine pyStrip_eq_self _ (fun x hx => ?_) (fun x hx => ?_)
    · have hx' : x = 'd' := by
        rw [show ((pre ++ ',' :: s) : Str).head? = some 'd' from by rw [hpre]; rfl] at hx
        exact (Option.some_inj.mp hx).symm
      rw [hx']; rfl
    · rw [List.reverse_append, List.reverse_cons, List.append_assoc,
        List.head?_append] at hx
      cases hsr : s.reverse.head? with
      | none =>
        rw [hsr] at hx
        have hx' : x = ',' := by
          simpa using (Option.some_inj.mp (by simpa using hx)).symm
        rw [hx']; rfl
      | some y =>
        rw [hsr] at hx
        have hy : y ∈ s := (List.mem_reverse).mp (List.mem_of_mem_head? (by rw [hsr]; rfl))
        have hx' : x = y := by simpa using (Option.some_inj.mp (by simpa using hx)).symm
        rw [hx']
        exact hs_nospace y hy
  rw [hstrip]
  -- the comma test and the data-prefix test both fire
  have hcomma_in : containsSeq [','] (pre ++ ',' :: s) = true := by
    refine (containsSeq_spec [','] _).mpr ⟨pre, s, ?_⟩
    simp
  have hdata : containsSeq.startsWith (str "data:") (pre ++ ',' :: s) = true := by
    refine (startsWith_spec (str "data:") _).mpr ⟨mid ++ ',' :: s, ?_⟩
    rw [hpre]
    simp [List.append_assoc]
  rw [hcomma_in, hdata]
  simp only [Bool.and_self, if_true]
  rw [afterFirstComma_append pre s hcomma_pre]
  rw [show (4 - s.length % 4) % 4 = 0 by omega]
  simp

/-- Witness for C7: `aGk` (stripped), `aGk=` (padded), and
`data:text/plain;base64,aGk=` all decode to the same bytes. -/
theorem C7_witness :
    resolveBase64 (str "aGk") = resolveBase64 (str "aGk" ++ List.replicate 1 '=')
    ∧ resolveBase64 (str "data:" ++ str "text/plain;base64" ++ [',']
          ++ (str "aGk" ++ List.replicate 1 '='))
      = resolveBase64 (str "aGk" ++ List.replicate 1 '=') :=
  C7_base64_repad_and_data_uri (str "aGk") (str "text/plain;base64") 1
    (by decide) (by decide) (by decide) (by decide)

example : resolveBase64 (str "aGk=") = some [104, 105] := by decide

example : resolveBase64 (str "aGk") = some [104, 105] := by decide

example : resolveBase64 (str "data:text/plain;base64,aGk=") = some [104, 105] := by decide

example : resolveBase64 (str "XlhBXkZPNTAsNTBeRkRIaQ==") =
    some ((str "^XA^FO50,50^FDHi").map Char.toNat) := by decide

end SfPrinter
